import Mathlib

set_option linter.unusedVariables false

/-!
Shallow embedding of `restapi/configure_kwsk_actions.go` from the kwsk
repository: the action CRUD handlers (delete, update/create, get-all), the
name/namespace normalizers, the Configuration/Route resource model, the
annotation codec (`configToAction` and the encoding performed inside
`updateActionFunc`), and the invocation bridge (`invokeActionFunc`,
`initAction`, `runAction`).

Calls into the Kubernetes/Knative client and the action-host HTTP endpoint
are modelled as oracle inputs (the result each external call would return),
and each handler additionally returns the list of external calls it issued,
in order, so that properties about which requests are (not) sent can be
stated.  `json.Unmarshal` is modelled as an abstract `parse` function
argument returning `Option JsonVal`.  Go `panic` is a distinguished result
constructor.  Machine strings are Lean `String`s; Go's `strings.ToLower`
(simple case mapping; the names involved are ASCII) is modelled with
`Char.toLower`, and `strings.Replace(s, " ", "-", -1)` as the per-character
replacement it is for a one-character pattern.
-/

namespace Kwsk

/-- Parsed JSON values, the result type of the modelled `json.Unmarshal`. -/
inductive JsonVal : Type where
  | null : JsonVal
  | bool (b : Bool) : JsonVal
  | num (n : Int) : JsonVal
  | str (s : String) : JsonVal
  | arr (elems : List JsonVal) : JsonVal
  | obj (fields : List (String × JsonVal)) : JsonVal

/-- Mirrors `models.ErrorMessage`: a single human-readable error string. -/
structure ErrorMessage : Type where
  error : String
deriving DecidableEq, Repr

/-- Mirrors `models.ActionExec` (fields `Kind`, `Code`, `Image`). -/
structure ActionExec : Type where
  kind : String
  code : String
  image : String
deriving DecidableEq, Repr

/-- Mirrors `models.Action` as used by the handlers: name, namespace and
version are carried as plain strings (the Go pointers are always non-nil
where the handlers build them); `exec` is optional, as `Exec` is a nilable
pointer checked by `updateActionFunc`. -/
structure Action : Type where
  name : String
  namespace_ : String
  version : String
  exec : Option ActionExec
deriving DecidableEq, Repr

/-- Mirrors `models.ActivationResult`. -/
structure ActivationResult : Type where
  result : JsonVal
  success : Bool

/-- Mirrors `models.Activation` as built by `runAction`. -/
structure Activation : Type where
  activationId : String
  name : String
  namespace_ : String
  response : ActivationResult
  logs : List String

/-- Mirrors `metav1.ObjectMeta` restricted to the fields the handlers use. -/
structure ObjectMeta : Type where
  name : String := ""
  namespace_ : String := ""
  annos : List (String × String) := []
deriving DecidableEq, Repr

/-- Mirrors `corev1.Container` restricted to the `Image` field. -/
structure Container : Type where
  image : String
deriving DecidableEq, Repr

/-- Mirrors `v1alpha1.RevisionSpec` restricted to the `Container` field. -/
structure RevisionSpec : Type where
  container : Container := { image := "" }
deriving DecidableEq, Repr

/-- Mirrors `v1alpha1.RevisionTemplateSpec`. -/
structure RevisionTemplateSpec : Type where
  spec : RevisionSpec := {}
deriving DecidableEq, Repr

/-- Mirrors `v1alpha1.ConfigurationSpec`. -/
structure ConfigurationSpec : Type where
  revisionTemplate : RevisionTemplateSpec := {}
deriving DecidableEq, Repr

/-- Mirrors `v1alpha1.Configuration`. -/
structure Configuration : Type where
  objectMeta : ObjectMeta
  spec : ConfigurationSpec
deriving DecidableEq, Repr

/-- Mirrors `v1alpha1.TrafficTarget` (fields `ConfigurationName`, `Percent`). -/
structure TrafficTarget : Type where
  configurationName : String
  percent : Nat
deriving DecidableEq, Repr

/-- Mirrors `v1alpha1.RouteSpec`. -/
structure RouteSpec : Type where
  traffic : List TrafficTarget := []
deriving DecidableEq, Repr

/-- Mirrors `v1alpha1.RouteStatus` restricted to the `Domain` field. -/
structure RouteStatus : Type where
  domain : String := ""
deriving DecidableEq, Repr

/-- Mirrors `v1alpha1.Route`. -/
structure Route : Type where
  objectMeta : ObjectMeta
  spec : RouteSpec := {}
  status : RouteStatus := {}
deriving DecidableEq, Repr

/-- Association-list lookup for a Go `map[string]string`, distinguishing an
absent key (`none`) from a present one. -/
def annoLookup : List (String × String) → String → Option String
  | [], _ => none
  | (k, v) :: rest, key => if k = key then some v else annoLookup rest key

/-- Go map read `m[key]` on a `map[string]string`: the zero value `""` when
the key is absent. -/
def annoGet (m : List (String × String)) (key : String) : String :=
  (annoLookup m key).getD ""

/-- Mirrors `namespaceOrDefault`: `"_"` is replaced by `"default"`. -/
def namespaceOrDefault (ns : String) : String :=
  if ns = "_" then "default" else ns

/-- Mirrors `sanitizeActionName`:
`strings.Replace(strings.ToLower(name), " ", "-", -1)`, i.e. lower-case every
character, then replace each space with a hyphen. -/
def sanitizeActionName (name : String) : String :=
  ⟨(name.data.map Char.toLower).map (fun c => if c = ' ' then '-' else c)⟩

/-- The per-character action of `sanitizeActionName`. -/
def sanitizeChar (c : Char) : Char :=
  if c.toLower = ' ' then '-' else c.toLower

/-- Errors returned by the modelled Kubernetes/Knative client: a not-found
error (detected by `errors.IsNotFound`) or any other error, each carrying its
`err.Error()` message. -/
inductive KErr : Type where
  | notFound (msg : String)
  | other (msg : String)
deriving DecidableEq, Repr

/-- Result of a modelled Knative `Get`-style call. -/
inductive KRes (γ : Type) : Type where
  | ok (val : γ)
  | notFound (msg : String)
  | err (msg : String)
deriving DecidableEq, Repr

/-- External calls a handler can issue, in order: Knative resource CRUD calls
and the two action-host HTTP requests sent by `actionRequest`. -/
inductive Event : Type where
  | getRoute (ns name : String)
  | getConfig (ns name : String)
  | createConfig (ns : String) (config : Configuration)
  | createRoute (ns : String) (route : Route)
  | delConfig (ns name : String)
  | delRoute (ns name : String)
  | initReq (istio host code : String)
  | runReq (istio host : String)
deriving DecidableEq, Repr

/-- Whether an event is an HTTP request to the action host (init or run). -/
def Event.isActionHostReq : Event → Bool
  | .initReq _ _ _ => true
  | .runReq _ _ => true
  | _ => false

/-- Responders the action handlers can return (mirrors the
`actions.New...` responder constructors used in the file). -/
inductive Responder : Type where
  | deleteActionOK
  | deleteActionNotFound (e : ErrorMessage)
  | deleteActionInternalServerError (e : ErrorMessage)
  | updateActionOK (a : Action)
  | updateActionInternalServerError (e : ErrorMessage)
  | invokeActionOK (a : Activation)
  | invokeActionNotFound (e : ErrorMessage)
  | invokeActionInternalServerError (e : ErrorMessage)
  | getAllActionsOK (as : List Action)
  | getAllActionsInternalServerError (e : ErrorMessage)

/-- Outcome of the invoke handler: a responder, or a Go `panic`. -/
inductive InvokeResult : Type where
  | responder (r : Responder)
  | panicked (msg : String)

/-- Mirrors `configToAction`: decode a Configuration back into an Action by
reading the four `kwsk_action_*` annotation keys (Go map reads, so an absent
key yields `""`) and the container image. -/
def configToAction (config : Configuration) : Action :=
  let name := annoGet config.objectMeta.annos "kwsk_action_name"
  let kind := annoGet config.objectMeta.annos "kwsk_action_kind"
  let version := annoGet config.objectMeta.annos "kwsk_action_version"
  let code := annoGet config.objectMeta.annos "kwsk_action_code"
  { name := name
    namespace_ := config.objectMeta.namespace_
    version := version
    exec := some { kind := kind, code := code
                   image := config.spec.revisionTemplate.spec.container.image } }

/-- The fixed default runtime image substituted by `updateActionFunc` when no
image is given. -/
def defaultActionImage : String := "openwhisk/action-nodejs-v8"

/-- The encoding of an Action into a Configuration performed inline by
`updateActionFunc` (lines 74-108): annotations for name and version, plus
kind and code when `exec` is present; the container image is `exec.image`
when non-empty, else the default image. -/
def encodeConfig (name configName ns version : String)
    (exec : Option ActionExec) : Configuration :=
  let base := [("kwsk_action_name", name), ("kwsk_action_version", version)]
  let annos :=
    match exec with
    | some e => base ++ [("kwsk_action_kind", e.kind), ("kwsk_action_code", e.code)]
    | none => base
  let image0 :=
    match exec with
    | some e => e.image
    | none => ""
  let image := if image0 = "" then defaultActionImage else image0
  { objectMeta := { name := configName, namespace_ := ns, annos := annos }
    spec := { revisionTemplate := { spec := { container := { image := image } } } } }

/-- The Route built by `updateActionFunc` (lines 122-135): all traffic to the
Configuration of the same (sanitized) name. -/
def routeForConfig (configName ns : String) : Route :=
  { objectMeta := { name := configName, namespace_ := ns }
    spec := { traffic := [{ configurationName := configName, percent := 100 }] } }

/-- Oracle for the external calls made by `deleteActionFunc`: the outcome of
the Configurations delete and of the Routes delete (`none` = success). -/
structure DeleteOracle : Type where
  configDelete : Option KErr
  routeDelete : Option KErr
deriving DecidableEq, Repr

/-- Mirrors `deleteActionFunc`: delete the Configuration under the sanitized
name, then the Route under the same name; map not-found to the NotFound
responder and any other error to InternalServerError, stopping at the first
failure. -/
def deleteAction (o : DeleteOracle) (actionName ns : String) :
    Responder × List Event :=
  let configName := sanitizeActionName actionName
  let ns' := namespaceOrDefault ns
  match o.configDelete with
  | some (.notFound m) =>
      (.deleteActionNotFound { error := m }, [.delConfig ns' configName])
  | some (.other m) =>
      (.deleteActionInternalServerError { error := m }, [.delConfig ns' configName])
  | none =>
      match o.routeDelete with
      | some (.notFound m) =>
          (.deleteActionNotFound { error := m },
           [.delConfig ns' configName, .delRoute ns' configName])
      | some (.other m) =>
          (.deleteActionInternalServerError { error := m },
           [.delConfig ns' configName, .delRoute ns' configName])
      | none =>
          (.deleteActionOK, [.delConfig ns' configName, .delRoute ns' configName])

/-- Oracle for the external calls made by `updateActionFunc`: the outcome of
the Configuration create, of the Route create, and of the Configuration `Get`
performed by `getActionByName` (`configCreate`/`routeCreate`: `none` =
success, `some msg` = error with message `msg`). -/
structure UpdateOracle : Type where
  configCreate : Option String
  routeCreate : Option String
  getConfig : Except String Configuration

/-- Mirrors `updateActionFunc`: encode and create the Configuration (any
error is InternalServerError), create the Route, then re-fetch the action via
`getActionByName` and return it.  The Route create's error value is
overwritten by the `getActionByName` call on the next line and never
inspected. -/
def updateAction (o : UpdateOracle) (actionName ns version : String)
    (exec : Option ActionExec) : Responder × List Event :=
  let name := actionName
  let configName := sanitizeActionName name
  let ns' := namespaceOrDefault ns
  let config := encodeConfig name configName ns' version exec
  match o.configCreate with
  | some m =>
      (.updateActionInternalServerError { error := m },
       [.createConfig ns' config])
  | none =>
      let route := routeForConfig configName ns'
      let trace := [Event.createConfig ns' config, Event.createRoute ns' route,
                    Event.getConfig ns' configName]
      match o.getConfig with
      | .error m => (.updateActionInternalServerError { error := m }, trace)
      | .ok cfg => (.updateActionOK (configToAction cfg), trace)

/-- Mirrors `getAllActionsFunc`, with the Configurations `List` call as
oracle input: an error is InternalServerError, otherwise every listed
Configuration is decoded with `configToAction`. -/
def getAllActions (listResult : Except String (List Configuration)) :
    Responder :=
  match listResult with
  | .error m => .getAllActionsInternalServerError { error := m }
  | .ok configs => .getAllActionsOK (configs.map configToAction)

/-- Mirrors `getActionParameters`: a nil payload becomes an empty map. -/
def getActionParameters (payload : Option JsonVal) : JsonVal :=
  match payload with
  | none => .obj []
  | some v => v

/-- Message built by `initAction` for a non-200, non-403 init status
(`fmt.Sprintf` modelled as concatenation; the typo is the source's). -/
def initErrMsg (resStatus : Nat) (resBody : String) : String :=
  "Error initializating action. Status: " ++ toString resStatus ++
    ", Message: " ++ resBody ++ "\n"

/-- Message built by `runAction` for a non-200 run status. -/
def runErrMsg (resStatus : Nat) (resBody : String) : String :=
  "Error invoking action. Status: " ++ toString resStatus ++
    ", Message: " ++ resBody ++ "\n"

/-- Message built by `runAction` when the run response body is not valid
JSON (the Go `fmt.Sprintf` there has mismatched verbs and mangles its
arguments; only the fixed prefix is modelled faithfully). -/
def jsonErrMsg (resBody : String) : String :=
  "Action invocation result was not valid JSON. Result: " ++ resBody ++ "\n"

/-- Mirrors `initAction`, with the `actionRequest` outcome as oracle input
(`.error msg` = transport/marshal error, `.ok (status, body)` otherwise):
transport errors and statuses other than 200 and 403 produce an
InternalServerError responder; 403 is ignored; success returns no responder
(`none`), letting the invoke flow continue. -/
def initAction (resp : Except String (Nat × String)) : Option Responder :=
  match resp with
  | .error m => some (.invokeActionInternalServerError { error := m })
  | .ok (resStatus, resBody) =>
      if resStatus = 403 then
        none
      else if resStatus ≠ 200 then
        some (.invokeActionInternalServerError
          { error := initErrMsg resStatus resBody })
      else
        none

/-- Mirrors `runAction`, with the `actionRequest` outcome as oracle input and
`json.Unmarshal` as the abstract `parse` argument: transport errors and
non-200 statuses produce InternalServerError; a 200 body that fails to parse
produces InternalServerError; otherwise a fresh Activation with
`success = true`, the placeholder activation id, and empty logs. -/
def runAction (parse : String → Option JsonVal)
    (resp : Except String (Nat × String)) (name ns : String)
    (params : JsonVal) : Responder :=
  match resp with
  | .error m => .invokeActionInternalServerError { error := m }
  | .ok (resStatus, resBody) =>
      if resStatus ≠ 200 then
        .invokeActionInternalServerError { error := runErrMsg resStatus resBody }
      else
        match parse resBody with
        | none =>
            .invokeActionInternalServerError { error := jsonErrMsg resBody }
        | some resultJson =>
            .invokeActionOK
              { activationId := "dummyactivationid"
                name := name
                namespace_ := ns
                response := { result := resultJson, success := true }
                logs := [] }

/-- Oracle for the external calls made by `invokeActionFunc`: the Routes
`Get`, the Configurations `Get`, and the `actionRequest` outcomes for the
init and run calls. -/
structure InvokeOracle : Type where
  routeGet : KRes Route
  configGet : KRes Configuration
  initResp : Except String (Nat × String)
  runResp : Except String (Nat × String)

/-- The panic message raised when the `--istio` flag is empty. -/
def istioPanicMsg : String :=
  "Istio host and port must be provided via --istio flag to invoke actions"

/-- Mirrors `invokeActionFunc`: fetch the Route and the Configuration by the
RAW `params.ActionName` (the source does not sanitize here), mapping
not-found to NotFound and other errors to InternalServerError; panic if the
istio gateway flag is empty; then run `initAction` and, if it returned no
error responder, `runAction` with the Configuration's metadata name. -/
def invokeAction (parse : String → Option JsonVal) (istio : String)
    (o : InvokeOracle) (actionName ns : String) (payload : Option JsonVal) :
    InvokeResult × List Event :=
  let ns' := namespaceOrDefault ns
  match o.routeGet with
  | .notFound m =>
      (.responder (.invokeActionNotFound { error := m }),
       [.getRoute ns' actionName])
  | .err m =>
      (.responder (.invokeActionInternalServerError { error := m }),
       [.getRoute ns' actionName])
  | .ok route =>
      match o.configGet with
      | .notFound m =>
          (.responder (.invokeActionNotFound { error := m }),
           [.getRoute ns' actionName, .getConfig ns' actionName])
      | .err m =>
          (.responder (.invokeActionInternalServerError { error := m }),
           [.getRoute ns' actionName, .getConfig ns' actionName])
      | .ok config =>
          let actionHost := route.status.domain
          if istio = "" then
            (.panicked istioPanicMsg,
             [.getRoute ns' actionName, .getConfig ns' actionName])
          else
            let code := annoGet config.objectMeta.annos "kwsk_action_code"
            match initAction o.initResp with
            | some r =>
                (.responder r,
                 [.getRoute ns' actionName, .getConfig ns' actionName,
                  .initReq istio actionHost code])
            | none =>
                (.responder
                   (runAction parse o.runResp config.objectMeta.name ns'
                     (getActionParameters payload)),
                 [.getRoute ns' actionName, .getConfig ns' actionName,
                  .initReq istio actionHost code, .runReq istio actionHost])

/-- A sample Route used to instantiate hypotheses at concrete inputs. -/
def sampleRoute : Route :=
  { objectMeta := { name := "my-action", namespace_ := "default" }
    spec := { traffic := [{ configurationName := "my-action", percent := 100 }] }
    status := { domain := "my-action.default.example.com" } }

/-- A sample Configuration (annotations carry a name and code but neither a
version nor a kind) used to instantiate hypotheses at concrete inputs. -/
def sampleConfig : Configuration :=
  { objectMeta := { name := "my-action", namespace_ := "default"
                    annos := [("kwsk_action_name", "My Action"),
                              ("kwsk_action_code", "code1")] }
    spec := { revisionTemplate := { spec := { container := { image := "img1" } } } } }

/-- A sample parse function that accepts every body. -/
def parseConst : String → Option JsonVal := fun _ => some JsonVal.null

/-- A sample parse function that rejects every body. -/
def parseNone : String → Option JsonVal := fun _ => none

/-- Evaluating `Char.ofNat` below the surrogate range. -/
theorem char_toNat_ofNat_of_lt (n : Nat) (h : n < 55296) :
    (Char.ofNat n).toNat = n := by
  have hv : n.isValidChar := Or.inl h
  unfold Char.ofNat
  rw [dif_pos hv]
  rfl

/-- Lower-casing is idempotent on characters (ASCII simple case mapping). -/
theorem char_toLower_toLower (c : Char) : c.toLower.toLower = c.toLower := by
  simp only [Char.toLower]
  by_cases h : c.toNat ≥ 65 ∧ c.toNat ≤ 90
  · rw [if_pos h]
    have h32 := char_toNat_ofNat_of_lt (c.toNat + 32) (by omega)
    have hcond : ¬((Char.ofNat (c.toNat + 32)).toNat ≥ 65 ∧
        (Char.ofNat (c.toNat + 32)).toNat ≤ 90) := by
      rw [h32]; omega
    rw [if_neg hcond]
  · rw [if_neg h, if_neg h]

/-- Lower-casing never turns a non-space character into a space. -/
theorem char_toLower_ne_space {c : Char} (h : c ≠ ' ') : c.toLower ≠ ' ' := by
  simp only [Char.toLower]
  by_cases hc : c.toNat ≥ 65 ∧ c.toNat ≤ 90
  · rw [if_pos hc]
    intro heq
    have htn := congrArg Char.toNat heq
    rw [char_toNat_ofNat_of_lt (c.toNat + 32) (by omega)] at htn
    have hsp : (' ' : Char).toNat = 32 := rfl
    rw [hsp] at htn
    omega
  · rw [if_neg hc]; exact h

/-- The data of a sanitized string is the per-character map. -/
theorem sanitizeActionName_data (s : String) :
    (sanitizeActionName s).data = s.data.map sanitizeChar := by
  simp only [sanitizeActionName, List.map_map]
  rfl

/-- `sanitizeChar` outputs are lower-case, space-free fixpoints. -/
theorem sanitizeChar_fix (c : Char) :
    (sanitizeChar c).toLower = sanitizeChar c ∧ sanitizeChar c ≠ ' ' := by
  by_cases h : c.toLower = ' '
  · simp only [sanitizeChar, if_pos h]
    exact ⟨by decide, by decide⟩
  · simp only [sanitizeChar, if_neg h]
    exact ⟨char_toLower_toLower c, h⟩

/-- `sanitizeChar` is idempotent. -/
theorem sanitizeChar_idem (c : Char) : sanitizeChar (sanitizeChar c) = sanitizeChar c := by
  obtain ⟨hfix, hsp⟩ := sanitizeChar_fix c
  show (if (sanitizeChar c).toLower = ' ' then '-' else (sanitizeChar c).toLower) =
    sanitizeChar c
  rw [hfix, if_neg hsp]

/-- C10: for every string `s`, `sanitizeActionName s` is lower-case (every
character is a fixpoint of lower-casing) and contains no space, and
`sanitizeActionName` is idempotent. -/
theorem sanitize_lowercase_nospace_idempotent (s : String) :
    (∀ c ∈ (sanitizeActionName s).data, c.toLower = c ∧ c ≠ ' ') ∧
    sanitizeActionName (sanitizeActionName s) = sanitizeActionName s := by
  constructor
  · intro c hc
    rw [sanitizeActionName_data] at hc
    obtain ⟨a, _, rfl⟩ := List.mem_map.mp hc
    exact sanitizeChar_fix a
  · have hdata : (sanitizeActionName (sanitizeActionName s)).data =
        (sanitizeActionName s).data := by
      rw [sanitizeActionName_data (sanitizeActionName s), sanitizeActionName_data s,
        List.map_map]
      apply List.map_congr_left
      intro a _
      exact sanitizeChar_idem a
    cases hl : sanitizeActionName (sanitizeActionName s)
    cases hr : sanitizeActionName s
    rw [hl, hr] at hdata
    exact congrArg String.mk hdata

/-- Witness for C10 at the concrete input `"My Action"`. -/
theorem sanitize_lowercase_nospace_idempotent_witness :
    'm' ∈ (sanitizeActionName "My Action").data ∧
    ('m'.toLower = 'm' ∧ 'm' ≠ ' ') ∧
    sanitizeActionName (sanitizeActionName "My Action") =
      sanitizeActionName "My Action" :=
  ⟨by decide,
   (sanitize_lowercase_nospace_idempotent "My Action").1 'm' (by decide),
   (sanitize_lowercase_nospace_idempotent "My Action").2⟩

/-- C2: in `updateActionFunc` the outcome of the Route create is never
inspected: the responder is the same for any two Route-create outcomes, and
when the Configuration create succeeds the responder is OK with the fetched
Action when the Get succeeds, or InternalServerError with the Get's message
when it fails — regardless of the Route create. -/
theorem update_ignores_route_create_result
    (cRes r₁ r₂ : Option String) (gRes : Except String Configuration)
    (name ns version : String) (exec : Option ActionExec) :
    (updateAction ⟨cRes, r₁, gRes⟩ name ns version exec).1 =
      (updateAction ⟨cRes, r₂, gRes⟩ name ns version exec).1 ∧
    (∀ cfg, cRes = none → gRes = .ok cfg →
      (updateAction ⟨cRes, r₁, gRes⟩ name ns version exec).1 =
        .updateActionOK (configToAction cfg)) ∧
    (∀ m, cRes = none → gRes = .error m →
      (updateAction ⟨cRes, r₁, gRes⟩ name ns version exec).1 =
        .updateActionInternalServerError ⟨m⟩) := by
  cases cRes <;> cases gRes <;>
    simp [updateAction]

/-- Witness for C2: a failed Route create is silently discarded and the
caller still receives OK with the stored Action. -/
theorem update_ignores_route_create_result_witness :
    (updateAction ⟨none, some "route create failed", Except.ok sampleConfig⟩
        "My Action" "_" "1.0" none).1 =
      Responder.updateActionOK (configToAction sampleConfig) :=
  (update_ignores_route_create_result none (some "route create failed")
    none (.ok sampleConfig) "My Action" "_" "1.0" none).2.1 sampleConfig rfl rfl

/-- C3: for an Action whose `exec.image` is explicitly set (non-empty),
decoding the Configuration produced by encoding it yields the same name,
version, exec.kind, exec.code and exec.image. -/
theorem codec_roundtrip_explicit_image (name ns version : String)
    (e : ActionExec) (himg : e.image ≠ "") :
    (configToAction (encodeConfig name (sanitizeActionName name)
        (namespaceOrDefault ns) version (some e))).name = name ∧
    (configToAction (encodeConfig name (sanitizeActionName name)
        (namespaceOrDefault ns) version (some e))).version = version ∧
    (configToAction (encodeConfig name (sanitizeActionName name)
        (namespaceOrDefault ns) version (some e))).exec =
      some { kind := e.kind, code := e.code, image := e.image } := by
  refine ⟨?_, ?_, ?_⟩ <;>
    simp [configToAction, encodeConfig, annoGet, annoLookup, himg]

/-- Witness for C3 at a concrete Action. -/
theorem codec_roundtrip_explicit_image_witness :
    ("img1" : String) ≠ "" ∧
    (configToAction (encodeConfig "My Action" (sanitizeActionName "My Action")
        (namespaceOrDefault "_") "1.0"
        (some { kind := "nodejs:8", code := "code1", image := "img1" }))).name =
      "My Action" :=
  ⟨by decide,
   (codec_roundtrip_explicit_image "My Action" "_" "1.0"
     { kind := "nodejs:8", code := "code1", image := "img1" } (by decide)).1⟩

/-- C5: `deleteActionFunc` deletes the Configuration and then the Route under
the same sanitized name; a not-found from either deletion yields the NotFound
responder, any other deletion error yields InternalServerError, and when the
Configuration delete succeeds the issued calls are exactly the two deletions
whatever the Route delete returns — no compensating call, so the
Configuration stays deleted. -/
theorem delete_order_error_mapping_no_rollback
    (name ns : String) (oc orr : Option KErr) :
    (oc = none →
      (deleteAction ⟨oc, orr⟩ name ns).2 =
        [Event.delConfig (namespaceOrDefault ns) (sanitizeActionName name),
         Event.delRoute (namespaceOrDefault ns) (sanitizeActionName name)]) ∧
    (∀ m, oc = some (.notFound m) →
      deleteAction ⟨oc, orr⟩ name ns =
        (.deleteActionNotFound ⟨m⟩,
         [Event.delConfig (namespaceOrDefault ns) (sanitizeActionName name)])) ∧
    (∀ m, oc = some (.other m) →
      deleteAction ⟨oc, orr⟩ name ns =
        (.deleteActionInternalServerError ⟨m⟩,
         [Event.delConfig (namespaceOrDefault ns) (sanitizeActionName name)])) ∧
    (∀ m, oc = none → orr = some (.notFound m) →
      (deleteAction ⟨oc, orr⟩ name ns).1 = .deleteActionNotFound ⟨m⟩) ∧
    (∀ m, oc = none → orr = some (.other m) →
      (deleteAction ⟨oc, orr⟩ name ns).1 = .deleteActionInternalServerError ⟨m⟩) ∧
    (oc = none → orr = none →
      (deleteAction ⟨oc, orr⟩ name ns).1 = .deleteActionOK) := by
  refine ⟨?_, ?_, ?_, ?_, ?_, ?_⟩
  · rintro rfl
    rcases orr with _ | e
    · rfl
    · cases e <;> rfl
  · rintro m rfl; rfl
  · rintro m rfl; rfl
  · rintro m rfl rfl; rfl
  · rintro m rfl rfl; rfl
  · rintro rfl rfl; rfl

/-- Witness for C5: Configuration delete succeeds, Route delete fails with a
non-not-found error; both deletions were issued (in order, same name, no
rollback call) and the responder is InternalServerError. -/
theorem delete_order_error_mapping_no_rollback_witness :
    (deleteAction ⟨none, some (KErr.other "net down")⟩ "My Action" "_").2 =
      [Event.delConfig (namespaceOrDefault "_") (sanitizeActionName "My Action"),
       Event.delRoute (namespaceOrDefault "_") (sanitizeActionName "My Action")] ∧
    (deleteAction ⟨none, some (KErr.other "net down")⟩ "My Action" "_").1 =
      Responder.deleteActionInternalServerError ⟨"net down"⟩ :=
  ⟨(delete_order_error_mapping_no_rollback "My Action" "_" none
      (some (.other "net down"))).1 rfl,
   (delete_order_error_mapping_no_rollback "My Action" "_" none
      (some (.other "net down"))).2.2.2.2.1 "net down" rfl rfl⟩

/-- C9: `configToAction` is a total function; each of the four annotation
keys, when absent, decodes to the empty string; and the list handler decodes
every listed Configuration independently via `configToAction`. -/
theorem decode_total_absent_annos_empty (config : Configuration)
    (configs : List Configuration) :
    (annoLookup config.objectMeta.annos "kwsk_action_name" = none →
      (configToAction config).name = "") ∧
    (annoLookup config.objectMeta.annos "kwsk_action_version" = none →
      (configToAction config).version = "") ∧
    (annoLookup config.objectMeta.annos "kwsk_action_kind" = none →
      ∃ ex, (configToAction config).exec = some ex ∧ ex.kind = "") ∧
    (annoLookup config.objectMeta.annos "kwsk_action_code" = none →
      ∃ ex, (configToAction config).exec = some ex ∧ ex.code = "") ∧
    getAllActions (.ok configs) = .getAllActionsOK (configs.map configToAction) := by
  refine ⟨?_, ?_, ?_, ?_, ?_⟩ <;>
    simp [configToAction, annoGet, getAllActions] <;>
    intro h <;> simp [h]

/-- Witness for C9: `sampleConfig` carries no version and no kind
annotation, and both decode to the empty string; a singleton list decodes
elementwise. -/
theorem decode_total_absent_annos_empty_witness :
    annoLookup sampleConfig.objectMeta.annos "kwsk_action_version" = none ∧
    (configToAction sampleConfig).version = "" ∧
    (∃ ex, (configToAction sampleConfig).exec = some ex ∧ ex.kind = "") ∧
    getAllActions (.ok [sampleConfig]) =
      .getAllActionsOK ([sampleConfig].map configToAction) :=
  ⟨rfl,
   (decode_total_absent_annos_empty sampleConfig [sampleConfig]).2.1 rfl,
   (decode_total_absent_annos_empty sampleConfig [sampleConfig]).2.2.1 rfl,
   (decode_total_absent_annos_empty sampleConfig [sampleConfig]).2.2.2.2⟩

/-- C4: when the init endpoint answers 403 and the run endpoint answers 200
with a body that parses as JSON, the invoke handler returns a successful
Activation whose `response.success` is `true`: the 403 is tolerated and does
not abort the flow. -/
theorem invoke_init_forbidden_benign (parse : String → Option JsonVal)
    (istio : String) (route : Route) (config : Configuration)
    (initBody runBody : String) (v : JsonVal)
    (actionName ns : String) (payload : Option JsonVal)
    (histio : istio ≠ "") (hparse : parse runBody = some v) :
    (invokeAction parse istio
        ⟨.ok route, .ok config, .ok (403, initBody), .ok (200, runBody)⟩
        actionName ns payload).1 =
      .responder (.invokeActionOK
        { activationId := "dummyactivationid"
          name := config.objectMeta.name
          namespace_ := namespaceOrDefault ns
          response := { result := v, success := true }
          logs := [] }) ∧
    ∃ a, (invokeAction parse istio
        ⟨.ok route, .ok config, .ok (403, initBody), .ok (200, runBody)⟩
        actionName ns payload).1 =
          .responder (.invokeActionOK a) ∧ a.response.success = true := by
  have hmain : (invokeAction parse istio
      ⟨.ok route, .ok config, .ok (403, initBody), .ok (200, runBody)⟩
      actionName ns payload).1 =
      .responder (.invokeActionOK
        { activationId := "dummyactivationid"
          name := config.objectMeta.name
          namespace_ := namespaceOrDefault ns
          response := { result := v, success := true }
          logs := [] }) := by
    simp [invokeAction, initAction, runAction, histio, hparse]
  exact ⟨hmain, _, hmain, rfl⟩

/-- Witness for C4 at concrete inputs. -/
theorem invoke_init_forbidden_benign_witness :
    ("istio.example:80" : String) ≠ "" ∧
    parseConst "result-body" = some JsonVal.null ∧
    (invokeAction parseConst "istio.example:80"
        ⟨.ok sampleRoute, .ok sampleConfig, .ok (403, "already inited"),
         .ok (200, "result-body")⟩ "my-action" "_" none).1 =
      .responder (.invokeActionOK
        { activationId := "dummyactivationid"
          name := sampleConfig.objectMeta.name
          namespace_ := namespaceOrDefault "_"
          response := { result := JsonVal.null, success := true }
          logs := [] }) :=
  ⟨by decide, rfl,
   (invoke_init_forbidden_benign parseConst "istio.example:80" sampleRoute
     sampleConfig "already inited" "result-body" JsonVal.null "my-action" "_"
     none (by decide) rfl).1⟩

/-- C6: a run response with a status other than 200 yields an
InternalServerError responder carrying the status and body, and never an
Activation. -/
theorem run_non_ok_internal_error (parse : String → Option JsonVal)
    (resStatus : Nat) (resBody name ns : String) (params : JsonVal)
    (h : resStatus ≠ 200) :
    runAction parse (.ok (resStatus, resBody)) name ns params =
      .invokeActionInternalServerError ⟨runErrMsg resStatus resBody⟩ ∧
    ∀ a, runAction parse (.ok (resStatus, resBody)) name ns params ≠
      .invokeActionOK a := by
  constructor
  · simp [runAction, h]
  · intro a
    simp [runAction, h]

/-- Witness for C6 at status 500. -/
theorem run_non_ok_internal_error_witness :
    (500 : Nat) ≠ 200 ∧
    runAction parseConst (.ok (500, "boom")) "my-action" "default" JsonVal.null =
      Responder.invokeActionInternalServerError ⟨runErrMsg 500 "boom"⟩ :=
  ⟨by decide,
   (run_non_ok_internal_error parseConst 500 "boom" "my-action" "default"
     JsonVal.null (by decide)).1⟩

/-- C7: a run response with status 200 whose body does not parse as JSON
yields an InternalServerError responder and never an Activation. -/
theorem run_malformed_json_internal_error (parse : String → Option JsonVal)
    (resBody name ns : String) (params : JsonVal)
    (h : parse resBody = none) :
    runAction parse (.ok (200, resBody)) name ns params =
      .invokeActionInternalServerError ⟨jsonErrMsg resBody⟩ ∧
    ∀ a, runAction parse (.ok (200, resBody)) name ns params ≠
      .invokeActionOK a := by
  constructor
  · simp [runAction, h]
  · intro a
    simp [runAction, h]

/-- Witness for C7 with a parse function that rejects the body. -/
theorem run_malformed_json_internal_error_witness :
    parseNone "not json" = none ∧
    runAction parseNone (.ok (200, "not json")) "my-action" "default"
        JsonVal.null =
      Responder.invokeActionInternalServerError ⟨jsonErrMsg "not json"⟩ :=
  ⟨rfl,
   (run_malformed_json_internal_error parseNone "not json" "my-action"
     "default" JsonVal.null rfl).1⟩

/-- C8: with an empty istio gateway flag, every invocation attempt fails
(never an OK Activation), no init or run request is ever issued, and whenever
both resource fetches succeed the handler panics. -/
theorem missing_istio_aborts_without_requests (parse : String → Option JsonVal)
    (o : InvokeOracle) (actionName ns : String) (payload : Option JsonVal) :
    (∀ a, (invokeAction parse "" o actionName ns payload).1 ≠
      .responder (.invokeActionOK a)) ∧
    (invokeAction parse "" o actionName ns payload).2.all
      (fun e => !e.isActionHostReq) = true ∧
    (∀ route config, o.routeGet = .ok route → o.configGet = .ok config →
      (invokeAction parse "" o actionName ns payload).1 =
        .panicked istioPanicMsg) := by
  obtain ⟨rg, cg, ir, rr⟩ := o
  rcases rg with route | m | m <;> rcases cg with config | m' | m' <;>
    refine ⟨?_, ?_, ?_⟩ <;>
      simp [invokeAction, Event.isActionHostReq]

/-- Witness for C8: both fetches succeed and the handler panics, issuing no
init or run request. -/
theorem missing_istio_aborts_without_requests_witness :
    (invokeAction parseConst ""
        ⟨.ok sampleRoute, .ok sampleConfig, .ok (200, ""), .ok (200, "")⟩
        "my-action" "_" none).1 = .panicked istioPanicMsg ∧
    (invokeAction parseConst ""
        ⟨.ok sampleRoute, .ok sampleConfig, .ok (200, ""), .ok (200, "")⟩
        "my-action" "_" none).2.all (fun e => !e.isActionHostReq) = true :=
  ⟨(missing_istio_aborts_without_requests parseConst
      ⟨.ok sampleRoute, .ok sampleConfig, .ok (200, ""), .ok (200, "")⟩
      "my-action" "_" none).2.2 sampleRoute sampleConfig rfl rfl,
   (missing_istio_aborts_without_requests parseConst
      ⟨.ok sampleRoute, .ok sampleConfig, .ok (200, ""), .ok (200, "")⟩
      "my-action" "_" none).2.1⟩

/-- C1 (divergence witness): `invokeActionFunc` fetches the Route by the RAW
`params.ActionName`, not by the sanitized name the claim (and the other
handlers) use: invoking `"My Action"` issues its Route `Get` under the key
`"My Action"`, although the sanitized name — the key under which
`updateActionFunc` created the pair — is `"my-action"`, and the backend's
not-found for the raw key is surfaced as NotFound without any init/run
request being issued. -/
theorem invoke_fetches_raw_not_sanitized_name :
    sanitizeActionName "My Action" = "my-action" ∧
    ("My Action" : String) ≠ sanitizeActionName "My Action" ∧
    invokeAction parseConst "istio.example:80"
        ⟨.notFound "routes \x22My Action\x22 not found", .ok sampleConfig,
         .ok (200, ""), .ok (200, "")⟩ "My Action" "_" none =
      (.responder (.invokeActionNotFound ⟨"routes \x22My Action\x22 not found"⟩),
       [.getRoute "default" "My Action"]) :=
  ⟨by decide, by decide, rfl⟩

end Kwsk
